import Mathlib

/-!
Verification of the adsb2cot converter (adsb2cot.py).

The development shallowly embeds the program: the per-aircraft registry is a
function from the ICAO hex identity to an optional record, one processed input
line is the pure step function `processLine`, and the CoT encoder `plane2CoT`
builds the XML element tree.  Python floats are modelled as exact rationals
given by an integer numerator over a power-of-ten denominator (the factors
0.3048 and 0.5144 are decimal constants, and on the integer inputs the program
feeds them the double rounding never lands within 0.02 of a decimal tie, so
the exact-rational rendering agrees with the double rendering digit for
digit).  Python exceptions that the program does not catch are surfaced as an
error outcome: in the real process they propagate out of the read loop and
terminate the process.  Wall-clock time is passed in as an abstract `now`
value for the record timestamps and as preformatted strings for the three
event timestamps, which no claim inspects.
-/

/- ### Python string primitives used by the program -/

/-- ASCII whitespace, as stripped by bytes.rstrip and by int(). -/
def isPySpace (c : Char) : Bool :=
  c = ' ' || c = '\t' || c = '\n' || c = '\r' || c = '\x0b' || c = '\x0c'

/-- Trailing-whitespace strip, modelling bytes.rstrip() on the raw line. -/
def pyRstrip (l : List Char) : List Char :=
  (l.reverse.dropWhile isPySpace).reverse

/-- Split a character list at every comma, modelling str.split(",").
An empty input yields one empty field, as in Python. -/
def splitCommas : List Char → List (List Char)
  | [] => [[]]
  | ',' :: rest => [] :: splitCommas rest
  | c :: rest =>
    match splitCommas rest with
    | [] => [[c]]
    | f :: fs => (c :: f) :: fs

/-- The CSV fields of one raw input line:
adsbLine.rstrip().decode("utf-8").split(",") at source line 138. -/
def pyFields (line : String) : List String :=
  (splitCommas (pyRstrip line.data)).map (fun l => String.mk l)

/-- Leading and trailing whitespace strip, as int() applies to its argument. -/
def pyStrip (l : List Char) : List Char :=
  (l.dropWhile isPySpace).reverse.dropWhile isPySpace |>.reverse

/-- Decimal value of a digit list. -/
def digitsVal (l : List Char) : Nat :=
  l.foldl (fun n c => 10 * n + (c.toNat - 48)) 0

/-- Partial model of the Python int() constructor on strings: optional sign,
then decimal digits, surrounding whitespace ignored; anything else raises
ValueError (returns none here).  Underscore digit grouping and non-ASCII
digits, which int() also accepts, are not modelled: no input of interest
contains them. -/
def pyInt? (s : String) : Option Int :=
  match pyStrip s.data with
  | [] => none
  | l =>
    let sd : Int × List Char :=
      match l with
      | '-' :: rest => (-1, rest)
      | '+' :: rest => (1, rest)
      | _ => (1, l)
    if sd.2 ≠ [] ∧ sd.2.all Char.isDigit then some (sd.1 * digitsVal sd.2) else none

/-- ASCII lower-casing of one character, as str.lower() acts on the hex
identities the program handles (all ASCII). -/
def lowerChar (c : Char) : Char :=
  if 'A' ≤ c ∧ c ≤ 'Z' then Char.ofNat (c.toNat + 32) else c

/-- ASCII model of str.lower(). -/
def pyLower (s : String) : String :=
  String.mk (s.data.map lowerChar)

/- ### Fixed-point decimal formatting, modelling the % operator on floats -/

/-- Round num / den (den positive) to the nearest integer, ties to even, the
rounding %-formatting applies. -/
def divRoundHalfEven (num den : Int) : Int :=
  let f := Int.fdiv num den
  let r := num - f * den
  if 2 * r < den then f
  else if den < 2 * r then f + 1
  else if f % 2 = 0 then f else f + 1

/-- Exactly `k` decimal digits of `n`, most significant first (`n` taken
mod 10^k). -/
def fixedDigits : Nat → Nat → List Char
  | 0, _ => []
  | k + 1, n => fixedDigits k (n / 10) ++ [Char.ofNat (48 + n % 10)]

/-- Render the rational num / den (den a positive power of ten in all uses)
with exactly `prec` digits after the decimal point, modelling the Python
expression "%.{prec}f" % x for x = num / den exactly. -/
def formatFixed (prec : Nat) (num : Int) (den : Nat) : String :=
  let scaled := divRoundHalfEven (num * (10 : Int) ^ prec) den
  let sign := if scaled < 0 then "-" else ""
  let n := scaled.natAbs
  sign ++ toString (n / 10 ^ prec) ++ "." ++ String.mk (fixedDigits prec (n % 10 ^ prec))

/-- Number of characters after the last decimal point of a rendered number. -/
def fracLen (s : String) : Nat :=
  (s.data.reverse.takeWhile (fun c => c != '.')).length

/- ### The XML element tree built by the encoder -/

/-- One XML element: tag, attribute list in document order, child elements,
optional text content.  xml.etree.ElementTree serialization order is the
construction order reproduced here. -/
inductive XmlElem where
  | mk (tag : String) (attrs : List (String × String)) (children : List XmlElem)
       (text : Option String)

def XmlElem.tag : XmlElem → String
  | .mk t _ _ _ => t

def XmlElem.attrs : XmlElem → List (String × String)
  | .mk _ a _ _ => a

def XmlElem.children : XmlElem → List XmlElem
  | .mk _ _ c _ => c

/-- First attribute value bound to key `k`. -/
def getAttr (e : XmlElem) (k : String) : Option String :=
  (e.attrs.find? (fun p => p.1 == k)).map Prod.snd

/-- First child element with tag `t`. -/
def findChild (e : XmlElem) (t : String) : Option XmlElem :=
  e.children.find? (fun c => c.tag == t)

/- ### The aircraft record and registry -/

/-- Python exceptions the program can raise while handling one line. -/
inductive PyErr where
  | keyError (k : String)
  | valueError
  | indexError
deriving DecidableEq

/-- One aircraft record: the key-value dict stored in `planes`.  Every field
is optional, mirroring key presence in the dict; values are kept as the raw
strings the program stores. -/
structure Plane where
  aircraft_id : Option String := none
  callsign : Option String := none
  lat : Option String := none
  lon : Option String := none
  altitude : Option String := none
  ground_speed : Option String := none
  ground_track : Option String := none
  vertical_rate : Option String := none
  last_seen : Option Nat := none
  last_sent : Option Nat := none
deriving DecidableEq

/-- The `planes` dict: identity to record. -/
def Registry := String → Option Plane

/-- planes[k] = p. -/
def updateReg (R : Registry) (k : String) (p : Plane) : Registry :=
  fun x => if x = k then some p else R x

/-- The fresh record built at source lines 148 to 152: aircraft_id is the hex
identity and the callsign is the placeholder "x" plus the identity. -/
def newPlane (hexID : String) : Plane :=
  { aircraft_id := some hexID, callsign := some ("x" ++ hexID) }

/-- Source lines 146 to 152: create the record if the identity is unknown. -/
def ensureRecord (R : Registry) (k : String) : Registry :=
  match R k with
  | some _ => R
  | none => updateReg R k (newPlane k)

/-- planes[k][field] = value.  The record always exists at every call site
(it was just ensured); the absent case returns the registry unchanged. -/
def setField (R : Registry) (k : String) (f : Plane → Plane) : Registry :=
  match R k with
  | some r => updateReg R k (f r)
  | none => R

/-- Altitude field of the record at `h`, if the record and field exist. -/
def altOf (R : Registry) (h : String) : Option String :=
  (R h).bind Plane.altitude

/-- Callsign field of the record at `h`. -/
def callsignOf (R : Registry) (h : String) : Option String :=
  (R h).bind Plane.callsign

/-- last_seen field of the record at `h`. -/
def lastSeenOf (R : Registry) (h : String) : Option Nat :=
  (R h).bind Plane.last_seen

/-- last_sent field of the record at `h`. -/
def lastSentOf (R : Registry) (h : String) : Option Nat :=
  (R h).bind Plane.last_sent

/- ### The encoder plane2CoT (source lines 38 to 101) -/

/-- Source line 35. -/
def UUID_ROOT : String := "7ea452c5-a1ec-ad5b-a7ac"

/-- Source line 29. -/
def TYPE_PLANE : String := "a-f-A-C-F"

/-- Source line 53. -/
def EV_HOW : String := "m-g"

/-- Source line 25, seconds of validity; only reflected in the preformatted
stale timestamp, which no claim inspects. -/
def PLANE_EVT_TTL : Nat := 120

/-- Source line 46: UUID_ROOT + "-1ca0" + "00" + plane["aircraft_id"].lower(). -/
def cotUid (aid : String) : String :=
  UUID_ROOT ++ "-1ca0" ++ "00" ++ pyLower aid

/-- Dict lookup plane[k]: raises KeyError when the key is absent. -/
def getKey (v : Option String) (k : String) : Except PyErr String :=
  match v with
  | some s => .ok s
  | none => .error (.keyError k)

/-- int() on a stored string: raises ValueError when unparsable. -/
def pyIntE (s : String) : Except PyErr Int :=
  match pyInt? s with
  | some n => .ok n
  | none => .error .valueError

/-- Source lines 85 to 93: the optional track block.  The try/except KeyError
catches a missing ground_track or ground_speed key (block omitted), but a
ValueError from int(plane["ground_speed"]) is not caught and propagates.
Course is read before speed, following the dict literal evaluation order. -/
def trackAttrs (plane : Plane) : Except PyErr (Option (List (String × String))) :=
  match plane.ground_track with
  | none => .ok none
  | some gt =>
    match plane.ground_speed with
    | none => .ok none
    | some gsStr =>
      match pyInt? gsStr with
      | none => .error .valueError
      | some gs =>
        -- "%.4f" % (0.5144 * int(plane["ground_speed"])): 0.5144 = 5144 / 10000
        .ok (some [("course", gt), ("speed", formatFixed 4 (5144 * gs) 10000)])

/-- The element tree plane2CoT assembles (source lines 58 to 96) from the
already-read field values.  hae is "%.2f" % (0.3048 * int(plane["altitude"]))
with 0.3048 = 3048 / 10000 exactly. -/
def cotElem (aid la lo : String) (alt : Int) (tr : Option (List (String × String)))
    (cs tNow tStale : String) : XmlElem :=
  XmlElem.mk "event"
    [("version", "2.0"), ("uid", cotUid aid), ("time", tNow), ("start", tNow),
     ("stale", tStale), ("type", TYPE_PLANE), ("how", EV_HOW)]
    [ XmlElem.mk "point"
        [("lat", la), ("lon", lo), ("hae", formatFixed 2 (3048 * alt) 10000),
         ("ce", "9999999.0"), ("le", "9999999.0")] [] none
    , XmlElem.mk "detail" []
        ((match tr with
          | some ta => [XmlElem.mk "track" ta [] none]
          | none => []) ++
         [ XmlElem.mk "contact" [("callsign", cs)] [] none
         , XmlElem.mk "remarks" [] [] (some ("ICAO:" ++ aid)) ])
        none ]
    none

/-- Source lines 38 to 101: build the CoT event for one record.  Field reads
happen in source order: aircraft_id (line 46), lat, lon, altitude (lines 70
to 73), the track block (lines 85 to 93), callsign (line 95); the first
failing read decides the exception.  The two wall-clock timestamp strings are
passed in preformatted. -/
def plane2CoT (plane : Plane) (tNow tStale : String) : Except PyErr XmlElem :=
  match plane.aircraft_id with
  | none => .error (.keyError "aircraft_id")
  | some aid =>
    match plane.lat with
    | none => .error (.keyError "lat")
    | some la =>
      match plane.lon with
      | none => .error (.keyError "lon")
      | some lo =>
        match plane.altitude with
        | none => .error (.keyError "altitude")
        | some altStr =>
          match pyInt? altStr with
          | none => .error .valueError
          | some alt =>
            match trackAttrs plane with
            | .error e => .error e
            | .ok tr =>
              match plane.callsign with
              | none => .error (.keyError "callsign")
              | some cs => .ok (cotElem aid la lo alt tr cs tNow tStale)

/- ### One iteration of the read loop (source lines 134 to 197) -/

/-- Result of handling one input line.  `ok none`: the line was processed or
skipped and the loop continues; `ok (some xml)`: additionally this CoT event
was sent; `err e`: an uncaught Python exception propagates out of the loop
and ends the process. -/
inductive Outcome where
  | ok (emitted : Option XmlElem)
  | err (e : PyErr)

def Outcome.isOk : Outcome → Bool
  | .ok _ => true
  | .err _ => false

def Outcome.didEmit : Outcome → Bool
  | .ok (some _) => true
  | _ => false

def Outcome.errOf : Outcome → Option PyErr
  | .err e => some e
  | .ok _ => none

/-- Source lines 180 to 197: the tail of the loop body after the merge.
When updateCoT is set the event is encoded and sent and last_sent is
recorded (line 195); last_seen is recorded at line 197 on every path that
reaches the end of the body. -/
def finishLine (R : Registry) (h : String) (updateCoT : Bool) (now : Nat)
    (tNow tStale : String) : Registry × Outcome :=
  match updateCoT with
  | true =>
    match R h with
    | none => (R, .err (.keyError h))
    | some r =>
      match plane2CoT r tNow tStale with
      | .error e => (R, .err e)
      | .ok msg =>
        (setField (setField R h (fun p => { p with last_sent := some now })) h
          (fun p => { p with last_seen := some now }), .ok (some msg))
  | false =>
    (setField R h (fun p => { p with last_seen := some now }), .ok none)

/-- Source lines 134 to 197: handle one raw input line against the registry.
Mirrors the Python control flow statement by statement:
line 138 split; lines 140 to 144 identity extraction with IndexError caught
(continue); lines 146 to 152 record creation; lines 155 to 156 the type
filter, whose int() can raise an uncaught ValueError and whose continue skips
the last_seen update; lines 161 to 177 the three merge branches, with list
indexing faults uncaught and the altitude positivity guard at line 174;
lines 182 to 197 encoding, sending and timestamps.  Mutations already made
before an uncaught exception stay in the returned registry, as they do in the
Python dict. -/
def processLine (R : Registry) (rawLine : String) (now : Nat)
    (tNow tStale : String) : Registry × Outcome :=
  let adsbData := pyFields rawLine
  match adsbData.get? 4 with
  | none => (R, .ok none)
  | some hexID =>
    let R1 := ensureRecord R hexID
    match adsbData.get? 1 with
    | none => (R1, .err .indexError)
    | some f1 =>
      match pyInt? f1 with
      | none => (R1, .err .valueError)
      | some n =>
        if 4 < n then (R1, .ok none)
        else if f1 = "1" then
          match adsbData.get? 10 with
          | none => (R1, .err .indexError)
          | some cs =>
            finishLine (setField R1 hexID (fun r => { r with callsign := some cs }))
              hexID false now tNow tStale
        else if f1 = "4" then
          match adsbData.get? 12 with
          | none => (R1, .err .indexError)
          | some gs =>
            let R2 := setField R1 hexID (fun r => { r with ground_speed := some gs })
            match adsbData.get? 13 with
            | none => (R2, .err .indexError)
            | some gt =>
              let R3 := setField R2 hexID (fun r => { r with ground_track := some gt })
              match adsbData.get? 16 with
              | none => (R3, .err .indexError)
              | some vr =>
                finishLine (setField R3 hexID (fun r => { r with vertical_rate := some vr }))
                  hexID false now tNow tStale
        else if f1 = "3" then
          match adsbData.get? 14 with
          | none => (R1, .err .indexError)
          | some la =>
            let R2 := setField R1 hexID (fun r => { r with lat := some la })
            match adsbData.get? 15 with
            | none => (R2, .err .indexError)
            | some lo =>
              let R3 := setField R2 hexID (fun r => { r with lon := some lo })
              match adsbData.get? 11 with
              | none => (R3, .err .indexError)
              | some f11 =>
                match pyInt? f11 with
                | none => (R3, .err .valueError)
                | some a =>
                  let R4 := if 0 < a then
                      setField R3 hexID (fun r => { r with altitude := some f11 })
                    else R3
                  finishLine R4 hexID true now tNow tStale
        else
          finishLine R1 hexID false now tNow tStale

/- ### Accessors used to state the claims -/

/-- Did the encode call succeed. -/
def isOkE (r : Except PyErr XmlElem) : Bool :=
  match r with
  | .ok _ => true
  | .error _ => false

/-- The exception of a failed encode call. -/
def exErr (r : Except PyErr XmlElem) : Option PyErr :=
  match r with
  | .error e => some e
  | .ok _ => none

/-- An event attribute of a successful encode result. -/
def okEventAttr (r : Except PyErr XmlElem) (k : String) : Option String :=
  match r with
  | .ok xml => getAttr xml k
  | .error _ => none

/-- A point attribute of a successful encode result. -/
def okPointAttr (r : Except PyErr XmlElem) (k : String) : Option String :=
  match r with
  | .ok xml => (findChild xml "point").bind (fun e => getAttr e k)
  | .error _ => none

/-- A track attribute of a successful encode result, when the track element
exists under detail. -/
def okTrackAttr (r : Except PyErr XmlElem) (k : String) : Option String :=
  match r with
  | .ok xml =>
    ((findChild xml "detail").bind (fun d => findChild d "track")).bind
      (fun t => getAttr t k)
  | .error _ => none

/-- Does the output of a successful encode contain a track element. -/
def hasTrackE (r : Except PyErr XmlElem) : Bool :=
  match r with
  | .ok xml =>
    match (findChild xml "detail").bind (fun d => findChild d "track") with
    | some _ => true
    | none => false
  | .error _ => false

/- ### Claim-side apparatus for the 24-bit identity space (C6) -/

/-- Lower-case hex digit of a value below 16. -/
def hexChar (d : Nat) : Char :=
  Char.ofNat (if d < 10 then 48 + d else 87 + d)

/-- Canonical 6-hex-character rendering of a 24-bit identity. -/
def toHex6 (n : Nat) : String :=
  String.mk [hexChar (n / 1048576 % 16), hexChar (n / 65536 % 16),
             hexChar (n / 4096 % 16), hexChar (n / 256 % 16),
             hexChar (n / 16 % 16), hexChar (n % 16)]

/-- Value of a lower-case hex digit character. -/
def hexVal (c : Char) : Nat :=
  if 97 ≤ c.toNat then c.toNat - 87 else c.toNat - 48

/-- Read a 6-hex-character string back as a number. -/
def fromHex6 (s : String) : Nat :=
  s.data.foldl (fun n c => 16 * n + hexVal c) 0

/- ### Concrete inputs used by witnesses and counterexamples -/

/-- The registry at process start: planes is empty. -/
def emptyReg : Registry := fun _ => none

/-- A record as it stands after identity, velocity and position updates. -/
def planeFull : Plane :=
  { aircraft_id := some "abc123", callsign := some "UAL1", lat := some "40.0",
    lon := some "-73.0", altitude := some "5000", ground_speed := some "400",
    ground_track := some "90" }

/-- A record whose position arrived but whose altitude never did. -/
def planeNoAlt : Plane :=
  { aircraft_id := some "ab0003", callsign := some "xab0003", lat := some "1.0",
    lon := some "2.0" }

/-- A record with position and altitude but no velocity data. -/
def planeNoTrack : Plane :=
  { aircraft_id := some "abc123", callsign := some "UAL1", lat := some "40.0",
    lon := some "-73.0", altitude := some "5000" }

/-- A record holding a previously reported altitude of 3500 feet. -/
def planeAlt3500 : Plane :=
  { aircraft_id := some "ABC123", callsign := some "xABC123", lat := some "1.0",
    lon := some "2.0", altitude := some "3500" }

/-- A registry tracking one aircraft with known altitude 3500. -/
def regAlt3500 : Registry := updateReg emptyReg "ABC123" planeAlt3500

/-- A registry tracking one freshly created aircraft record. -/
def regFresh4 : Registry := updateReg emptyReg "AB0004" (newPlane "AB0004")

/-- A complete airborne-position line with a positive altitude. -/
def lineEmit : String := "MSG,3,1,1,ABC123,1,x,x,x,x,,5000,,,40.0,-73.0"

/-- An airborne-position line reporting altitude 0 for a fresh aircraft. -/
def linePosAlt0 : String := "MSG,3,1,1,AB0001,1,x,x,x,x,,0,,,40.0,-73.0"

/-- An airborne-position line reporting altitude 0 for a tracked aircraft. -/
def linePosAlt0K : String := "MSG,3,1,1,ABC123,1,x,x,x,x,,0,,,40.0,-73.0"

/-- A line whose message-type field is not an integer. -/
def lineBadType : String := "MSG,zz,1,1,AB0002"

/-- A line with only three comma-separated fields, hence no identity field. -/
def lineShort : String := "MSG,3,1"

/-- An identity line whose callsign field (index 10) is empty. -/
def lineIdentEmpty : String := "MSG,1,1,1,AB0004,1,2,3,4,5,"

/-- An identity line carrying the callsign UAL12. -/
def lineIdentCs : String := "MSG,1,1,1,AB0007,1,2,3,4,5,UAL12"

/-- A line with message-type code 5, outside the tracked set. -/
def lineType5 : String := "MSG,5,1,1,AB0005"

/-- A line with message-type code 2, tracked but with no merge branch. -/
def lineType2 : String := "MSG,2,1,1,AB0008"

/-- A registry tracking one aircraft whose altitude never arrived. -/
def regNoAlt : Registry := updateReg emptyReg "ab0003" planeNoAlt

/-- A position line with altitude 0 for the aircraft tracked in regNoAlt. -/
def lineC5cex : String := "MSG,3,1,1,ab0003,1,x,x,x,x,,0,,,3.0,4.0"

/-- Another record whose position arrived but whose altitude never did. -/
def planeNoAlt2 : Plane :=
  { aircraft_id := some "cd0006", callsign := some "xcd0006", lat := some "5.0",
    lon := some "6.0" }

/-- A position line with altitude 0 for an aircraft not yet tracked. -/
def lineC5w : String := "MSG,3,1,1,CD0006,1,x,x,x,x,,0,,,5.0,6.0"

/- ### Helper lemmas: registry operations -/

theorem updateReg_self (R : Registry) (k : String) (p : Plane) :
    updateReg R k p k = some p := by
  simp [updateReg]

theorem updateReg_updateReg (R : Registry) (k : String) (p q : Plane) :
    updateReg (updateReg R k p) k q = updateReg R k q := by
  funext x
  unfold updateReg
  by_cases hx : x = k <;> simp [hx]

theorem setField_updateReg (R : Registry) (k : String) (p : Plane) (f : Plane → Plane) :
    setField (updateReg R k p) k f = updateReg R k (f p) := by
  unfold setField
  rw [updateReg_self]
  exact updateReg_updateReg R k p (f p)

theorem setField_of_eq (R : Registry) (k : String) (r : Plane) (f : Plane → Plane)
    (h : R k = some r) : setField R k f = updateReg R k (f r) := by
  unfold setField
  rw [h]

theorem setField_of_eq' (R : Registry) (k : String) (f : Plane → Plane) (h : R k = none) :
    setField R k f = R := by
  unfold setField
  rw [h]

theorem ensureRecord_of_none (R : Registry) (k : String) (h : R k = none) :
    ensureRecord R k = updateReg R k (newPlane k) := by
  unfold ensureRecord
  rw [h]

theorem ensureRecord_of_some (R : Registry) (k : String) (r : Plane) (h : R k = some r) :
    ensureRecord R k = R := by
  unfold ensureRecord
  rw [h]

theorem bind_updateReg {α : Type} (R : Registry) (k : String) (p : Plane) (x : String)
    (g : Plane → Option α) :
    ((updateReg R k p) x).bind g = if x = k then g p else (R x).bind g := by
  unfold updateReg
  by_cases hx : x = k <;> simp [hx]

theorem updateReg_isSome (R : Registry) (k : String) (p : Plane) (x : String) :
    ((updateReg R k p) x).isSome = (if x = k then true else (R x).isSome) := by
  unfold updateReg
  by_cases hx : x = k <;> simp [hx]

theorem altOf_updateReg (R : Registry) (k : String) (p : Plane) (x : String) :
    altOf (updateReg R k p) x = if x = k then p.altitude else altOf R x :=
  bind_updateReg R k p x Plane.altitude

theorem callsignOf_updateReg (R : Registry) (k : String) (p : Plane) (x : String) :
    callsignOf (updateReg R k p) x = if x = k then p.callsign else callsignOf R x :=
  bind_updateReg R k p x Plane.callsign

theorem lastSeenOf_updateReg (R : Registry) (k : String) (p : Plane) (x : String) :
    lastSeenOf (updateReg R k p) x = if x = k then p.last_seen else lastSeenOf R x :=
  bind_updateReg R k p x Plane.last_seen

theorem lastSentOf_updateReg (R : Registry) (k : String) (p : Plane) (x : String) :
    lastSentOf (updateReg R k p) x = if x = k then p.last_sent else lastSentOf R x :=
  bind_updateReg R k p x Plane.last_sent

theorem altOf_ensure (R : Registry) (k x : String) :
    altOf (ensureRecord R k) x = altOf R x := by
  unfold ensureRecord
  cases hk : R k with
  | some r => rfl
  | none =>
    rw [altOf_updateReg]
    by_cases hx : x = k
    · subst hx
      simp [newPlane, altOf, hk]
    · simp [hx]

theorem lastSeenOf_ensure (R : Registry) (k x : String) :
    lastSeenOf (ensureRecord R k) x = lastSeenOf R x := by
  unfold ensureRecord
  cases hk : R k with
  | some r => rfl
  | none =>
    rw [lastSeenOf_updateReg]
    by_cases hx : x = k
    · subst hx
      simp [newPlane, lastSeenOf, hk]
    · simp [hx]

theorem ensure_isSome (R : Registry) (k : String) :
    ((ensureRecord R k) k).isSome = true := by
  unfold ensureRecord
  cases hk : R k with
  | some r => simp [hk]
  | none => simp [updateReg]

theorem setField_isSome (R : Registry) (k : String) (f : Plane → Plane) (x : String) :
    ((setField R k f) x).isSome = (R x).isSome := by
  unfold setField
  cases hk : R k with
  | none => rfl
  | some r =>
    rw [updateReg_isSome]
    by_cases hx : x = k
    · subst hx
      simp [hk]
    · simp [hx]

/- ### Helper lemmas: outcomes and the loop tail -/

theorem didEmit_ok_none : (Outcome.ok none).didEmit = false := rfl

theorem didEmit_err (e : PyErr) : (Outcome.err e).didEmit = false := rfl

theorem finish_false (R : Registry) (h : String) (now : Nat) (tN tS : String) :
    finishLine R h false now tN tS
      = (setField R h (fun p => { p with last_seen := some now }), .ok none) := rfl

theorem finish_altOf (R : Registry) (h : String) (u : Bool) (now : Nat) (tN tS x : String) :
    altOf (finishLine R h u now tN tS).1 x = altOf R x := by
  unfold finishLine
  split
  · cases hr : R h with
    | none => simp [hr]
    | some r =>
      simp only [hr]
      cases hm : plane2CoT r tN tS with
      | error e => rfl
      | ok msg =>
        simp only
        rw [setField_of_eq R h r _ hr, setField_updateReg, altOf_updateReg]
        by_cases hx : x = h
        · subst hx
          simp [altOf, hr]
        · simp [hx]
  · simp only
    cases hr : R h with
    | none => rw [setField_of_eq' R h _ hr]
    | some r =>
      rw [setField_of_eq R h r _ hr, altOf_updateReg]
      by_cases hx : x = h
      · subst hx
        simp [altOf, hr]
      · simp [hx]

theorem callsignOf_finish (R : Registry) (h : String) (u : Bool) (now : Nat) (tN tS x : String) :
    callsignOf (finishLine R h u now tN tS).1 x = callsignOf R x := by
  unfold finishLine
  split
  · cases hr : R h with
    | none => simp [hr]
    | some r =>
      simp only [hr]
      cases hm : plane2CoT r tN tS with
      | error e => rfl
      | ok msg =>
        simp only
        rw [setField_of_eq R h r _ hr, setField_updateReg, callsignOf_updateReg]
        by_cases hx : x = h
        · subst hx
          simp [callsignOf, hr]
        · simp [hx]
  · simp only
    cases hr : R h with
    | none => rw [setField_of_eq' R h _ hr]
    | some r =>
      rw [setField_of_eq R h r _ hr, callsignOf_updateReg]
      by_cases hx : x = h
      · subst hx
        simp [callsignOf, hr]
      · simp [hx]

theorem finish_false_didEmit (R : Registry) (h : String) (now : Nat) (tN tS : String) :
    (finishLine R h false now tN tS).2.didEmit = false := rfl

theorem finish_lastSeen (R : Registry) (h : String) (u : Bool) (now : Nat) (tN tS : String)
    (hs : (R h).isSome = true)
    (hok : (finishLine R h u now tN tS).2.isOk = true) :
    lastSeenOf (finishLine R h u now tN tS).1 h = some now := by
  obtain ⟨r, hr⟩ := Option.isSome_iff_exists.mp hs
  cases u with
  | false =>
    rw [finish_false]
    simp only
    rw [setField_of_eq R h r _ hr, lastSeenOf_updateReg]
    simp
  | true =>
    unfold finishLine at hok ⊢
    rw [hr] at hok ⊢
    dsimp only at hok ⊢
    cases hm : plane2CoT r tN tS with
    | error e =>
      rw [hm] at hok
      dsimp only at hok
      simp [Outcome.isOk] at hok
    | ok msg =>
      dsimp only
      rw [setField_of_eq R h r _ hr, setField_updateReg, lastSeenOf_updateReg]
      simp

theorem finish_emit (R : Registry) (h : String) (u : Bool) (now : Nat) (tN tS : String)
    (he : (finishLine R h u now tN tS).2.didEmit = true) :
    u = true
    ∧ lastSentOf (finishLine R h u now tN tS).1 h = some now
    ∧ lastSeenOf (finishLine R h u now tN tS).1 h = some now := by
  cases u with
  | false => simp [finish_false_didEmit] at he
  | true =>
    refine ⟨rfl, ?_⟩
    unfold finishLine at he ⊢
    dsimp only at he ⊢
    cases hr : R h with
    | none =>
      rw [hr] at he
      dsimp only at he
      simp [Outcome.didEmit] at he
    | some r =>
      rw [hr] at he
      dsimp only at he ⊢
      cases hm : plane2CoT r tN tS with
      | error e =>
        rw [hm] at he
        dsimp only at he
        simp [Outcome.didEmit] at he
      | ok msg =>
        dsimp only
        rw [setField_of_eq R h r _ hr, setField_updateReg, lastSentOf_updateReg,
          lastSeenOf_updateReg]
        simp

theorem finish_true_cases (R : Registry) (h : String) (now : Nat) (tN tS : String) :
    (finishLine R h true now tN tS).2.didEmit = true
    ∨ (finishLine R h true now tN tS).2.isOk = false := by
  unfold finishLine
  dsimp only
  cases hr : R h with
  | none => right; rfl
  | some r =>
    dsimp only
    cases hm : plane2CoT r tN tS with
    | error e => right; rfl
    | ok msg => left; rfl

theorem altOf_setField (R : Registry) (k : String) (f : Plane → Plane) (x : String)
    (hf : ∀ r, (f r).altitude = r.altitude) :
    altOf (setField R k f) x = altOf R x := by
  unfold setField
  cases hk : R k with
  | none => rfl
  | some r =>
    rw [altOf_updateReg]
    by_cases hx : x = k
    · subst hx
      simp [altOf, hk, hf]
    · simp [hx]

theorem callsignOf_setField (R : Registry) (k : String) (f : Plane → Plane) (x : String)
    (hf : ∀ r, (f r).callsign = r.callsign) :
    callsignOf (setField R k f) x = callsignOf R x := by
  unfold setField
  cases hk : R k with
  | none => rfl
  | some r =>
    rw [callsignOf_updateReg]
    by_cases hx : x = k
    · subst hx
      simp [callsignOf, hk, hf]
    · simp [hx]

theorem lastSeenOf_setField (R : Registry) (k : String) (f : Plane → Plane) (x : String)
    (hf : ∀ r, (f r).last_seen = r.last_seen) :
    lastSeenOf (setField R k f) x = lastSeenOf R x := by
  unfold setField
  cases hk : R k with
  | none => rfl
  | some r =>
    rw [lastSeenOf_updateReg]
    by_cases hx : x = k
    · subst hx
      simp [lastSeenOf, hk, hf]
    · simp [hx]

theorem finish_isSome (R : Registry) (k : String) (u : Bool) (now : Nat) (tN tS x : String) :
    ((finishLine R k u now tN tS).1 x).isSome = (R x).isSome := by
  cases u with
  | false =>
    rw [finish_false]
    exact setField_isSome R k _ x
  | true =>
    unfold finishLine
    dsimp only
    cases hr : R k with
    | none => rfl
    | some r =>
      dsimp only
      cases hm : plane2CoT r tN tS with
      | error e => rfl
      | ok msg =>
        dsimp only
        rw [setField_isSome, setField_isSome]

theorem altOf_set_callsign (R : Registry) (k : String) (v : String) (x : String) :
    altOf (setField R k (fun r => { r with callsign := some v })) x = altOf R x :=
  altOf_setField R k _ x (fun _ => rfl)

theorem altOf_set_gs (R : Registry) (k : String) (v : String) (x : String) :
    altOf (setField R k (fun r => { r with ground_speed := some v })) x = altOf R x :=
  altOf_setField R k _ x (fun _ => rfl)

theorem altOf_set_gt (R : Registry) (k : String) (v : String) (x : String) :
    altOf (setField R k (fun r => { r with ground_track := some v })) x = altOf R x :=
  altOf_setField R k _ x (fun _ => rfl)

theorem altOf_set_vr (R : Registry) (k : String) (v : String) (x : String) :
    altOf (setField R k (fun r => { r with vertical_rate := some v })) x = altOf R x :=
  altOf_setField R k _ x (fun _ => rfl)

theorem altOf_set_lat (R : Registry) (k : String) (v : String) (x : String) :
    altOf (setField R k (fun r => { r with lat := some v })) x = altOf R x :=
  altOf_setField R k _ x (fun _ => rfl)

theorem altOf_set_lon (R : Registry) (k : String) (v : String) (x : String) :
    altOf (setField R k (fun r => { r with lon := some v })) x = altOf R x :=
  altOf_setField R k _ x (fun _ => rfl)

theorem altOf_processLine (R : Registry) (line : String) (now : Nat) (tN tS : String)
    (x : String) :
    altOf (processLine R line now tN tS).1 x = altOf R x
    ∨ ((pyFields line).get? 1 = some "3" ∧ (pyFields line).get? 4 = some x
       ∧ ∃ f11 a, (pyFields line).get? 11 = some f11 ∧ pyInt? f11 = some a ∧ 0 < a
         ∧ altOf (processLine R line now tN tS).1 x = some f11) := by
  unfold processLine
  dsimp only
  cases h4 : (pyFields line).get? 4 with
  | none => left; rfl
  | some hexID =>
    dsimp only
    cases h1 : (pyFields line).get? 1 with
    | none => left; exact altOf_ensure R hexID x
    | some f1 =>
      dsimp only
      cases hInt : pyInt? f1 with
      | none => left; exact altOf_ensure R hexID x
      | some n =>
        dsimp only
        by_cases hgt : 4 < n
        · rw [if_pos hgt]
          left
          exact altOf_ensure R hexID x
        · rw [if_neg hgt]
          by_cases hf1 : f1 = "1"
          · rw [if_pos hf1]
            cases h10 : (pyFields line).get? 10 with
            | none => left; exact altOf_ensure R hexID x
            | some cs =>
              dsimp only
              left
              rw [finish_altOf, altOf_set_callsign]
              exact altOf_ensure R hexID x
          · rw [if_neg hf1]
            by_cases hf4 : f1 = "4"
            · rw [if_pos hf4]
              cases h12 : (pyFields line).get? 12 with
              | none => left; exact altOf_ensure R hexID x
              | some gs =>
                dsimp only
                cases h13 : (pyFields line).get? 13 with
                | none =>
                  dsimp only
                  left
                  rw [altOf_set_gs]
                  exact altOf_ensure R hexID x
                | some gt =>
                  dsimp only
                  cases h16 : (pyFields line).get? 16 with
                  | none =>
                    dsimp only
                    left
                    rw [altOf_set_gt, altOf_set_gs]
                    exact altOf_ensure R hexID x
                  | some vr =>
                    dsimp only
                    left
                    rw [finish_altOf, altOf_set_vr, altOf_set_gt, altOf_set_gs]
                    exact altOf_ensure R hexID x
            · rw [if_neg hf4]
              by_cases hf3 : f1 = "3"
              · rw [if_pos hf3]
                cases h14 : (pyFields line).get? 14 with
                | none => left; exact altOf_ensure R hexID x
                | some la =>
                  dsimp only
                  cases h15 : (pyFields line).get? 15 with
                  | none =>
                    dsimp only
                    left
                    rw [altOf_set_lat]
                    exact altOf_ensure R hexID x
                  | some lo =>
                    dsimp only
                    cases h11 : (pyFields line).get? 11 with
                    | none =>
                      dsimp only
                      left
                      rw [altOf_set_lon, altOf_set_lat]
                      exact altOf_ensure R hexID x
                    | some f11 =>
                      dsimp only
                      cases hInt11 : pyInt? f11 with
                      | none =>
                        dsimp only
                        left
                        rw [altOf_set_lon, altOf_set_lat]
                        exact altOf_ensure R hexID x
                      | some a =>
                        dsimp only
                        by_cases hpos : 0 < a
                        · rw [if_pos hpos]
                          by_cases hx : x = hexID
                          · subst hx
                            right
                            subst hf3
                            refine ⟨rfl, rfl, f11, a, rfl, hInt11, hpos, ?_⟩
                            rw [finish_altOf]
                            have hsome : ((setField (setField (ensureRecord R x) x
                                (fun r => { r with lat := some la })) x
                                (fun r => { r with lon := some lo })) x).isSome = true := by
                              rw [setField_isSome, setField_isSome]
                              exact ensure_isSome R x
                            obtain ⟨r3, hr3⟩ := Option.isSome_iff_exists.mp hsome
                            rw [setField_of_eq _ x r3 _ hr3, altOf_updateReg]
                            simp
                          · left
                            rw [finish_altOf]
                            have heq : ∀ (S : Registry) (f : Plane → Plane),
                                altOf (setField S hexID f) x = altOf S x := by
                              intro S f
                              unfold setField
                              cases hk : S hexID with
                              | none => rfl
                              | some r =>
                                rw [altOf_updateReg]
                                simp [hx]
                            rw [heq, heq, heq]
                            exact altOf_ensure R hexID x
                        · rw [if_neg hpos]
                          left
                          rw [finish_altOf, altOf_set_lon, altOf_set_lat]
                          exact altOf_ensure R hexID x
              · rw [if_neg hf3]
                left
                rw [finish_altOf]
                exact altOf_ensure R hexID x

theorem processLine_keeps (R : Registry) (line : String) (now : Nat) (tN tS : String)
    (hexID : String) (h4 : (pyFields line).get? 4 = some hexID) :
    ((processLine R line now tN tS).1 hexID).isSome = true := by
  unfold processLine
  dsimp only
  rw [h4]
  dsimp only
  repeat' split
  all_goals simp only [finish_isSome, setField_isSome]
  all_goals exact ensure_isSome R hexID

theorem processLine_emit (R : Registry) (line : String) (now : Nat) (tN tS : String)
    (he : (processLine R line now tN tS).2.didEmit = true) :
    (pyFields line).get? 1 = some "3"
    ∧ ∃ hexID, (pyFields line).get? 4 = some hexID
      ∧ lastSentOf (processLine R line now tN tS).1 hexID = some now
      ∧ lastSeenOf (processLine R line now tN tS).1 hexID = some now := by
  unfold processLine at he ⊢
  dsimp only at he ⊢
  cases h4 : (pyFields line).get? 4 with
  | none =>
    rw [h4] at he
    dsimp only at he
    simp [Outcome.didEmit] at he
  | some hexID =>
    rw [h4] at he
    dsimp only at he ⊢
    cases h1 : (pyFields line).get? 1 with
    | none =>
      rw [h1] at he
      dsimp only at he
      simp [Outcome.didEmit] at he
    | some f1 =>
      rw [h1] at he
      dsimp only at he ⊢
      cases hInt : pyInt? f1 with
      | none =>
        rw [hInt] at he
        dsimp only at he
        simp [Outcome.didEmit] at he
      | some n =>
        rw [hInt] at he
        dsimp only at he ⊢
        by_cases hgt : 4 < n
        · rw [if_pos hgt] at he
          simp [Outcome.didEmit] at he
        · rw [if_neg hgt] at he ⊢
          by_cases hf1 : f1 = "1"
          · rw [if_pos hf1] at he
            cases h10 : (pyFields line).get? 10 with
            | none =>
              rw [h10] at he
              dsimp only at he
              simp [Outcome.didEmit] at he
            | some cs =>
              rw [h10] at he
              dsimp only at he
              rw [finish_false_didEmit] at he
              simp at he
          · rw [if_neg hf1] at he ⊢
            by_cases hf4 : f1 = "4"
            · rw [if_pos hf4] at he
              cases h12 : (pyFields line).get? 12 with
              | none =>
                rw [h12] at he
                dsimp only at he
                simp [Outcome.didEmit] at he
              | some gs =>
                rw [h12] at he
                dsimp only at he
                cases h13 : (pyFields line).get? 13 with
                | none =>
                  rw [h13] at he
                  dsimp only at he
                  simp [Outcome.didEmit] at he
                | some gt =>
                  rw [h13] at he
                  dsimp only at he
                  cases h16 : (pyFields line).get? 16 with
                  | none =>
                    rw [h16] at he
                    dsimp only at he
                    simp [Outcome.didEmit] at he
                  | some vr =>
                    rw [h16] at he
                    dsimp only at he
                    rw [finish_false_didEmit] at he
                    simp at he
            · rw [if_neg hf4] at he ⊢
              by_cases hf3 : f1 = "3"
              · rw [if_pos hf3] at he ⊢
                subst hf3
                refine ⟨rfl, hexID, rfl, ?_⟩
                cases h14 : (pyFields line).get? 14 with
                | none =>
                  try rw [h14] at he
                  dsimp only at he
                  simp [Outcome.didEmit] at he
                | some la =>
                  try rw [h14] at he
                  try rw [h14]
                  dsimp only at he ⊢
                  cases h15 : (pyFields line).get? 15 with
                  | none =>
                    try rw [h15] at he
                    dsimp only at he
                    simp [Outcome.didEmit] at he
                  | some lo =>
                    try rw [h15] at he
                    try rw [h15]
                    dsimp only at he ⊢
                    cases h11 : (pyFields line).get? 11 with
                    | none =>
                      try rw [h11] at he
                      dsimp only at he
                      simp [Outcome.didEmit] at he
                    | some f11 =>
                      try rw [h11] at he
                      try rw [h11]
                      dsimp only at he ⊢
                      cases hInt11 : pyInt? f11 with
                      | none =>
                        try rw [hInt11] at he
                        dsimp only at he
                        simp [Outcome.didEmit] at he
                      | some a =>
                        try rw [hInt11] at he
                        try rw [hInt11]
                        dsimp only at he ⊢
                        by_cases hpos : 0 < a
                        · rw [if_pos hpos] at he ⊢
                          exact (finish_emit _ _ _ _ _ _ he).2
                        · rw [if_neg hpos] at he ⊢
                          exact (finish_emit _ _ _ _ _ _ he).2
              · rw [if_neg hf3] at he
                rw [finish_false_didEmit] at he
                simp at he

theorem processLine_noid (R : Registry) (line : String) (now : Nat) (tN tS : String)
    (h4 : (pyFields line).get? 4 = none) :
    processLine R line now tN tS = (R, .ok none) := by
  unfold processLine
  dsimp only
  rw [h4]

theorem processLine_gt4 (R : Registry) (line : String) (now : Nat) (tN tS : String)
    (hexID f1 : String) (n : Int)
    (h4 : (pyFields line).get? 4 = some hexID)
    (h1 : (pyFields line).get? 1 = some f1)
    (hInt : pyInt? f1 = some n) (hgt : 4 < n) :
    processLine R line now tN tS = (ensureRecord R hexID, .ok none) := by
  unfold processLine
  dsimp only
  rw [h4]
  dsimp only
  rw [h1]
  dsimp only
  rw [hInt]
  dsimp only
  rw [if_pos hgt]

theorem processLine_type1 (R : Registry) (line : String) (now : Nat) (tN tS : String)
    (hexID cs : String)
    (h4 : (pyFields line).get? 4 = some hexID)
    (h1 : (pyFields line).get? 1 = some "1")
    (h10 : (pyFields line).get? 10 = some cs) :
    callsignOf (processLine R line now tN tS).1 hexID = some cs
    ∧ (processLine R line now tN tS).2.didEmit = false := by
  unfold processLine
  dsimp only
  rw [h4]
  dsimp only
  rw [h1]
  dsimp only
  rw [(show pyInt? "1" = some 1 by decide)]
  dsimp only
  rw [if_neg (show ¬(4 : Int) < 1 by decide), if_pos rfl, h10]
  dsimp only
  constructor
  · rw [callsignOf_finish]
    obtain ⟨r1, hr1⟩ := Option.isSome_iff_exists.mp (ensure_isSome R hexID)
    rw [setField_of_eq _ hexID r1 _ hr1, callsignOf_updateReg]
    simp
  · exact finish_false_didEmit _ _ _ _ _

theorem processLine_type1_noemit (R : Registry) (line : String) (now : Nat) (tN tS : String)
    (h1 : (pyFields line).get? 1 = some "1") :
    (processLine R line now tN tS).2.didEmit = false := by
  unfold processLine
  dsimp only
  cases h4 : (pyFields line).get? 4 with
  | none => rfl
  | some hexID =>
    dsimp only
    rw [h1]
    dsimp only
    rw [(show pyInt? "1" = some 1 by decide)]
    dsimp only
    rw [if_neg (show ¬(4 : Int) < 1 by decide), if_pos rfl]
    cases h10 : (pyFields line).get? 10 with
    | none => rfl
    | some cs =>
      dsimp only
      exact finish_false_didEmit _ _ _ _ _

theorem processLine_type4_noemit (R : Registry) (line : String) (now : Nat) (tN tS : String)
    (h1 : (pyFields line).get? 1 = some "4") :
    (processLine R line now tN tS).2.didEmit = false := by
  unfold processLine
  dsimp only
  cases h4 : (pyFields line).get? 4 with
  | none => rfl
  | some hexID =>
    dsimp only
    rw [h1]
    dsimp only
    rw [(show pyInt? "4" = some 4 by decide)]
    dsimp only
    rw [if_neg (show ¬(4 : Int) < 4 by decide),
      if_neg (show ¬("4" : String) = "1" by decide), if_pos rfl]
    cases h12 : (pyFields line).get? 12 with
    | none => rfl
    | some gs =>
      dsimp only
      cases h13 : (pyFields line).get? 13 with
      | none => rfl
      | some gt =>
        dsimp only
        cases h16 : (pyFields line).get? 16 with
        | none => rfl
        | some vr =>
          dsimp only
          exact finish_false_didEmit _ _ _ _ _

theorem processLine_type3_attempt (R : Registry) (line : String) (now : Nat) (tN tS : String)
    (hexID : String)
    (h4 : (pyFields line).get? 4 = some hexID)
    (h1 : (pyFields line).get? 1 = some "3") :
    (processLine R line now tN tS).2.didEmit = true
    ∨ (processLine R line now tN tS).2.isOk = false := by
  unfold processLine
  dsimp only
  rw [h4]
  dsimp only
  rw [h1]
  dsimp only
  rw [(show pyInt? "3" = some 3 by decide)]
  dsimp only
  rw [if_neg (show ¬(4 : Int) < 3 by decide),
    if_neg (show ¬("3" : String) = "1" by decide),
    if_neg (show ¬("3" : String) = "4" by decide), if_pos rfl]
  cases h14 : (pyFields line).get? 14 with
  | none => right; rfl
  | some la =>
    dsimp only
    cases h15 : (pyFields line).get? 15 with
    | none => right; rfl
    | some lo =>
      dsimp only
      cases h11 : (pyFields line).get? 11 with
      | none => right; rfl
      | some f11 =>
        dsimp only
        cases hInt11 : pyInt? f11 with
        | none => right; rfl
        | some a =>
          dsimp only
          split
          · exact finish_true_cases _ hexID now tN tS
          · exact finish_true_cases _ hexID now tN tS

theorem processLine_lastSeen (R : Registry) (line : String) (now : Nat) (tN tS : String)
    (hexID f1 : String) (n : Int)
    (h4 : (pyFields line).get? 4 = some hexID)
    (h1 : (pyFields line).get? 1 = some f1)
    (hInt : pyInt? f1 = some n) (hle : n ≤ 4)
    (hok : (processLine R line now tN tS).2.isOk = true) :
    lastSeenOf (processLine R line now tN tS).1 hexID = some now := by
  have hgt : ¬4 < n := not_lt.mpr hle
  unfold processLine at hok ⊢
  dsimp only at hok ⊢
  rw [h4] at hok ⊢
  dsimp only at hok ⊢
  rw [h1] at hok ⊢
  dsimp only at hok ⊢
  rw [hInt] at hok ⊢
  dsimp only at hok ⊢
  rw [if_neg hgt] at hok ⊢
  by_cases hf1 : f1 = "1"
  · rw [if_pos hf1] at hok ⊢
    cases h10 : (pyFields line).get? 10 with
    | none =>
      try rw [h10] at hok
      dsimp only at hok
      simp [Outcome.isOk] at hok
    | some cs =>
      try rw [h10] at hok
      try rw [h10]
      dsimp only at hok ⊢
      refine finish_lastSeen _ _ _ _ _ _ ?_ hok
      rw [setField_isSome]
      exact ensure_isSome R hexID
  · rw [if_neg hf1] at hok ⊢
    by_cases hf4 : f1 = "4"
    · rw [if_pos hf4] at hok ⊢
      cases h12 : (pyFields line).get? 12 with
      | none =>
        try rw [h12] at hok
        dsimp only at hok
        simp [Outcome.isOk] at hok
      | some gs =>
        try rw [h12] at hok
        try rw [h12]
        dsimp only at hok ⊢
        cases h13 : (pyFields line).get? 13 with
        | none =>
          try rw [h13] at hok
          dsimp only at hok
          simp [Outcome.isOk] at hok
        | some gt =>
          try rw [h13] at hok
          try rw [h13]
          dsimp only at hok ⊢
          cases h16 : (pyFields line).get? 16 with
          | none =>
            try rw [h16] at hok
            dsimp only at hok
            simp [Outcome.isOk] at hok
          | some vr =>
            try rw [h16] at hok
            try rw [h16]
            dsimp only at hok ⊢
            refine finish_lastSeen _ _ _ _ _ _ ?_ hok
            rw [setField_isSome, setField_isSome, setField_isSome]
            exact ensure_isSome R hexID
    · rw [if_neg hf4] at hok ⊢
      by_cases hf3 : f1 = "3"
      · rw [if_pos hf3] at hok ⊢
        cases h14 : (pyFields line).get? 14 with
        | none =>
          try rw [h14] at hok
          dsimp only at hok
          simp [Outcome.isOk] at hok
        | some la =>
          try rw [h14] at hok
          try rw [h14]
          dsimp only at hok ⊢
          cases h15 : (pyFields line).get? 15 with
          | none =>
            try rw [h15] at hok
            dsimp only at hok
            simp [Outcome.isOk] at hok
          | some lo =>
            try rw [h15] at hok
            try rw [h15]
            dsimp only at hok ⊢
            cases h11 : (pyFields line).get? 11 with
            | none =>
              try rw [h11] at hok
              dsimp only at hok
              simp [Outcome.isOk] at hok
            | some f11 =>
              try rw [h11] at hok
              try rw [h11]
              dsimp only at hok ⊢
              cases hInt11 : pyInt? f11 with
              | none =>
                try rw [hInt11] at hok
                dsimp only at hok
                simp [Outcome.isOk] at hok
              | some a =>
                try rw [hInt11] at hok
                try rw [hInt11]
                dsimp only at hok ⊢
                by_cases hpos : 0 < a
                · rw [if_pos hpos] at hok ⊢
                  refine finish_lastSeen _ _ _ _ _ _ ?_ hok
                  rw [setField_isSome, setField_isSome, setField_isSome]
                  exact ensure_isSome R hexID
                · rw [if_neg hpos] at hok ⊢
                  refine finish_lastSeen _ _ _ _ _ _ ?_ hok
                  rw [setField_isSome, setField_isSome]
                  exact ensure_isSome R hexID
      · rw [if_neg hf3] at hok ⊢
        refine finish_lastSeen _ _ _ _ _ _ ?_ hok
        exact ensure_isSome R hexID

theorem processLine_noalt_keyerror (R : Registry) (line : String) (now : Nat) (tN tS : String)
    (hexID la lo f11 : String) (a : Int)
    (h4 : (pyFields line).get? 4 = some hexID)
    (h1 : (pyFields line).get? 1 = some "3")
    (hR : R hexID = none)
    (h14 : (pyFields line).get? 14 = some la)
    (h15 : (pyFields line).get? 15 = some lo)
    (h11 : (pyFields line).get? 11 = some f11)
    (hInt11 : pyInt? f11 = some a) (hnpos : ¬0 < a) :
    (processLine R line now tN tS).2.errOf = some (.keyError "altitude") := by
  unfold processLine
  dsimp only
  rw [h4]
  dsimp only
  rw [h1]
  dsimp only
  rw [(show pyInt? "3" = some 3 by decide)]
  dsimp only
  rw [if_neg (show ¬(4 : Int) < 3 by decide),
    if_neg (show ¬("3" : String) = "1" by decide),
    if_neg (show ¬("3" : String) = "4" by decide), if_pos rfl]
  rw [h14]
  dsimp only
  rw [h15]
  dsimp only
  rw [h11]
  dsimp only
  rw [hInt11]
  dsimp only
  rw [if_neg hnpos]
  rw [ensureRecord_of_none R hexID hR, setField_updateReg, setField_updateReg]
  unfold finishLine
  dsimp only
  rw [updateReg_self]
  dsimp only
  rfl

theorem plane2CoT_ok_inv (p : Plane) (tN tS : String)
    (hok : isOkE (plane2CoT p tN tS) = true) :
    ∃ aid la lo altStr alt tr cs,
      p.aircraft_id = some aid ∧ p.lat = some la ∧ p.lon = some lo
      ∧ p.altitude = some altStr ∧ pyInt? altStr = some alt
      ∧ trackAttrs p = .ok tr ∧ p.callsign = some cs
      ∧ plane2CoT p tN tS = .ok (cotElem aid la lo alt tr cs tN tS) := by
  unfold plane2CoT at hok ⊢
  cases hA : p.aircraft_id with
  | none =>
    try rw [hA] at hok
    simp [isOkE] at hok
  | some aid =>
    try rw [hA] at hok
    try rw [hA]
    dsimp only at hok ⊢
    cases hLa : p.lat with
    | none =>
      try rw [hLa] at hok
      simp [isOkE] at hok
    | some la =>
      try rw [hLa] at hok
      try rw [hLa]
      dsimp only at hok ⊢
      cases hLo : p.lon with
      | none =>
        try rw [hLo] at hok
        simp [isOkE] at hok
      | some lo =>
        try rw [hLo] at hok
        try rw [hLo]
        dsimp only at hok ⊢
        cases hAlt : p.altitude with
        | none =>
          try rw [hAlt] at hok
          simp [isOkE] at hok
        | some altStr =>
          try rw [hAlt] at hok
          try rw [hAlt]
          dsimp only at hok ⊢
          cases hInt : pyInt? altStr with
          | none =>
            try rw [hInt] at hok
            simp [isOkE] at hok
          | some alt =>
            try rw [hInt] at hok
            try rw [hInt]
            dsimp only at hok ⊢
            cases hT : trackAttrs p with
            | error e =>
              try rw [hT] at hok
              simp [isOkE] at hok
            | ok tr =>
              try rw [hT] at hok
              try rw [hT]
              dsimp only at hok ⊢
              cases hC : p.callsign with
              | none =>
                try rw [hC] at hok
                simp [isOkE] at hok
              | some cs =>
                try rw [hC] at hok
                try rw [hC]
                dsimp only at hok ⊢
                refine ⟨aid, la, lo, altStr, alt, tr, cs, ?_, ?_, ?_, ?_, ?_, ?_, ?_, ?_⟩
                all_goals first
                  | rfl
                  | exact hA
                  | exact hLa
                  | exact hLo
                  | exact hAlt
                  | exact hInt

theorem trackAttrs_ok_isSome (p : Plane) (tr : Option (List (String × String)))
    (h : trackAttrs p = .ok tr) :
    tr.isSome = (p.ground_speed.isSome && p.ground_track.isSome) := by
  unfold trackAttrs at h
  cases hgt : p.ground_track with
  | none =>
    rw [hgt] at h
    cases h
    simp
  | some gt =>
    rw [hgt] at h
    dsimp only at h
    cases hgs : p.ground_speed with
    | none =>
      rw [hgs] at h
      cases h
      simp
    | some gs =>
      rw [hgs] at h
      dsimp only at h
      cases hpi : pyInt? gs with
      | none =>
        rw [hpi] at h
        cases h
      | some g =>
        rw [hpi] at h
        dsimp only at h
        cases h
        simp

theorem trackAttrs_of_present (p : Plane) (gt gs : String) (g : Int)
    (hgt : p.ground_track = some gt) (hgs : p.ground_speed = some gs)
    (hparse : pyInt? gs = some g) :
    trackAttrs p = .ok (some [("course", gt), ("speed", formatFixed 4 (5144 * g) 10000)]) := by
  unfold trackAttrs
  rw [hgt]
  dsimp only
  rw [hgs]
  dsimp only
  rw [hparse]

theorem cotElem_uid (aid la lo : String) (alt : Int) (tr : Option (List (String × String)))
    (cs tN tS : String) :
    getAttr (cotElem aid la lo alt tr cs tN tS) "uid" = some (cotUid aid) := by
  simp [cotElem, getAttr, XmlElem.attrs, List.find?]

theorem cotElem_hae (aid la lo : String) (alt : Int) (tr : Option (List (String × String)))
    (cs tN tS : String) :
    (findChild (cotElem aid la lo alt tr cs tN tS) "point").bind
      (fun e => getAttr e "hae") = some (formatFixed 2 (3048 * alt) 10000) := by
  simp [cotElem, findChild, getAttr, XmlElem.attrs, XmlElem.children, XmlElem.tag, List.find?]

theorem cotElem_track (aid la lo : String) (alt : Int) (tr : Option (List (String × String)))
    (cs tN tS : String) :
    (findChild (cotElem aid la lo alt tr cs tN tS) "detail").bind
      (fun d => findChild d "track")
      = (tr.map (fun ta => XmlElem.mk "track" ta [] none)) := by
  cases tr with
  | none =>
    simp [cotElem, findChild, XmlElem.children, XmlElem.tag, List.find?]
  | some ta =>
    simp [cotElem, findChild, XmlElem.children, XmlElem.tag, List.find?]

/- ### Helper lemmas: strings, formatting, hex identities -/

theorem strData_append (a b : String) : (a ++ b).data = a.data ++ b.data :=
  String.data_append a b

theorem strData_inj (a b : String) (h : a.data = b.data) : a = b := by
  cases a
  cases b
  exact congrArg String.mk h

theorem fixedDigits_length (k : Nat) : ∀ n : Nat, (fixedDigits k n).length = k := by
  induction k with
  | zero => intro n; rfl
  | succ k ih =>
    intro n
    simp [fixedDigits, ih]

theorem digitChar_ne_dot : ∀ m : Fin 10, (Char.ofNat (48 + m.1) != '.') = true := by decide

theorem fixedDigits_no_dot (k : Nat) : ∀ (n : Nat), ∀ c ∈ fixedDigits k n, (c != '.') = true := by
  induction k with
  | zero =>
    intro n c hc
    cases hc
  | succ k ih =>
    intro n c hc
    simp only [fixedDigits, List.mem_append, List.mem_singleton] at hc
    rcases hc with hc | hc
    · exact ih _ c hc
    · subst hc
      exact digitChar_ne_dot ⟨n % 10, Nat.mod_lt _ (by norm_num)⟩

theorem takeWhile_append_of (p : Char → Bool) (x : Char) (l r : List Char)
    (h1 : ∀ c ∈ l, p c = true) (hx : p x = false) :
    List.takeWhile p (l ++ x :: r) = l := by
  induction l with
  | nil => simp [List.takeWhile, hx]
  | cons a as ih =>
    simp only [List.cons_append, List.takeWhile]
    rw [h1 a (by simp)]
    simp only [List.cons.injEq, true_and]
    exact ih (fun c hc => h1 c (by simp [hc]))

theorem fracLen_core (s1 s2 : String) (k m : Nat) :
    fracLen (s1 ++ s2 ++ "." ++ String.mk (fixedDigits k m)) = k := by
  unfold fracLen
  simp only [strData_append]
  simp only [List.reverse_append, List.reverse_cons, List.reverse_nil, List.nil_append,
    List.append_assoc, List.cons_append]
  have h1 : ∀ c ∈ (fixedDigits k m).reverse, (c != '.') = true := by
    intro c hc
    rw [List.mem_reverse] at hc
    exact fixedDigits_no_dot k m c hc
  rw [takeWhile_append_of _ '.' _ _ h1 (by decide)]
  rw [List.length_reverse, fixedDigits_length]

theorem fracLen_formatFixed (prec : Nat) (num : Int) (den : Nat) :
    fracLen (formatFixed prec num den) = prec := by
  unfold formatFixed
  exact fracLen_core _ _ prec _

theorem hexVal_hexChar_fin : ∀ m : Fin 16, hexVal (hexChar m.1) = m.1 := by decide

theorem lowerChar_hexChar_fin : ∀ m : Fin 16, lowerChar (hexChar m.1) = hexChar m.1 := by decide

theorem hexVal_hexChar (m : Nat) (h : m < 16) : hexVal (hexChar m) = m :=
  hexVal_hexChar_fin ⟨m, h⟩

theorem lowerChar_hexChar (m : Nat) (h : m < 16) : lowerChar (hexChar m) = hexChar m :=
  lowerChar_hexChar_fin ⟨m, h⟩

theorem fromHex6_toHex6 (n : Nat) (hn : n < 16777216) : fromHex6 (toHex6 n) = n := by
  unfold fromHex6 toHex6
  dsimp only
  simp only [List.foldl]
  rw [hexVal_hexChar _ (Nat.mod_lt _ (by norm_num)),
    hexVal_hexChar _ (Nat.mod_lt _ (by norm_num)),
    hexVal_hexChar _ (Nat.mod_lt _ (by norm_num)),
    hexVal_hexChar _ (Nat.mod_lt _ (by norm_num)),
    hexVal_hexChar _ (Nat.mod_lt _ (by norm_num)),
    hexVal_hexChar _ (Nat.mod_lt _ (by norm_num))]
  omega

theorem pyLower_toHex6 (n : Nat) : pyLower (toHex6 n) = toHex6 n := by
  unfold pyLower toHex6
  dsimp only
  simp only [List.map]
  rw [lowerChar_hexChar _ (Nat.mod_lt _ (by norm_num)),
    lowerChar_hexChar _ (Nat.mod_lt _ (by norm_num)),
    lowerChar_hexChar _ (Nat.mod_lt _ (by norm_num)),
    lowerChar_hexChar _ (Nat.mod_lt _ (by norm_num)),
    lowerChar_hexChar _ (Nat.mod_lt _ (by norm_num)),
    lowerChar_hexChar _ (Nat.mod_lt _ (by norm_num))]

theorem cotUid_inj_lower (s t : String) (h : cotUid s = cotUid t) :
    pyLower s = pyLower t := by
  unfold cotUid at h
  have hd := congrArg String.data h
  simp only [strData_append, List.append_assoc] at hd
  have h1 := List.append_cancel_left hd
  have h2 := List.append_cancel_left h1
  have h3 := List.append_cancel_left h2
  exact strData_inj _ _ h3

theorem cotUid_inj24 (n m : Nat) (hn : n < 16777216) (hm : m < 16777216)
    (h : cotUid (toHex6 n) = cotUid (toHex6 m)) : n = m := by
  have h2 := cotUid_inj_lower _ _ h
  rw [pyLower_toHex6, pyLower_toHex6] at h2
  have h3 := congrArg fromHex6 h2
  rw [fromHex6_toHex6 n hn, fromHex6_toHex6 m hm] at h3
  exact h3

/- ### The claims -/

/-- C1: for every record snapshot whose stored altitude parses as an integer, a
successful encode carries a point hae attribute equal to altitude_feet × 0.3048
rendered with exactly 2 decimal places, and, whenever the track block is emitted
because ground track and ground speed are both known (with the speed parsing as an
integer), a speed attribute equal to ground_speed_knots × 0.5144 rendered with
exactly 4 decimal places.  The factors are modelled exactly as the rationals
3048/10000 and 5144/10000. -/
theorem c1_unit_conversions (p : Plane) (tN tS aStr : String) (a : Int)
    (halt : p.altitude = some aStr) (hparse : pyInt? aStr = some a)
    (hok : isOkE (plane2CoT p tN tS) = true) :
    (okPointAttr (plane2CoT p tN tS) "hae" = some (formatFixed 2 (3048 * a) 10000)
      ∧ ∀ s, okPointAttr (plane2CoT p tN tS) "hae" = some s → fracLen s = 2)
    ∧ ∀ gt gs g, p.ground_track = some gt → p.ground_speed = some gs →
        pyInt? gs = some g →
        okTrackAttr (plane2CoT p tN tS) "speed" = some (formatFixed 4 (5144 * g) 10000)
        ∧ ∀ s, okTrackAttr (plane2CoT p tN tS) "speed" = some s → fracLen s = 4 := by
  obtain ⟨aid, la, lo, altStr, alt, tr, cs, hA, hLa, hLo, hAlt, hInt, hT, hC, heq⟩ :=
    plane2CoT_ok_inv p tN tS hok
  have h1 : altStr = aStr := Option.some.inj (hAlt.symm.trans halt)
  subst h1
  have h2 : alt = a := Option.some.inj (hInt.symm.trans hparse)
  subst h2
  refine ⟨⟨?_, ?_⟩, ?_⟩
  · rw [heq]
    dsimp only [okPointAttr]
    exact cotElem_hae aid la lo _ tr cs tN tS
  · intro s hs
    rw [heq] at hs
    dsimp only [okPointAttr] at hs
    rw [cotElem_hae] at hs
    obtain rfl := Option.some.inj hs
    exact fracLen_formatFixed 2 _ _
  · intro gt gs g hgt hgs hpg
    have htr := trackAttrs_of_present p gt gs g hgt hgs hpg
    have htr2 : tr = some [("course", gt), ("speed", formatFixed 4 (5144 * g) 10000)] := by
      have := hT.symm.trans htr
      injection this
    subst htr2
    have hspeed : okTrackAttr (plane2CoT p tN tS) "speed"
        = some (formatFixed 4 (5144 * g) 10000) := by
      rw [heq]
      dsimp only [okTrackAttr]
      rw [cotElem_track]
      simp [getAttr, XmlElem.attrs, List.find?]
    refine ⟨hspeed, ?_⟩
    intro s hs
    rw [hspeed] at hs
    obtain rfl := Option.some.inj hs
    exact fracLen_formatFixed 4 _ _

/-- Witness for C1 at a concrete snapshot: 5000 ft renders as hae 1524.00 and
400 knots renders as speed 205.7600. -/
theorem c1_unit_conversions_witness :
    okPointAttr (plane2CoT planeFull "T" "S") "hae" = some "1524.00"
    ∧ okTrackAttr (plane2CoT planeFull "T" "S") "speed" = some "205.7600" := by
  have h := c1_unit_conversions planeFull "T" "S" "5000" 5000 rfl (by decide) (by decide)
  constructor
  · exact h.1.1.trans (by decide)
  · exact ((h.2 "90" "400" 400 rfl rfl (by decide)).1).trans (by decide)

/-- C2 counterexample: linePosAlt0 is an Airborne-Position line (message-type 3)
for a fresh aircraft with reported altitude 0, yet no emission occurs: the encode
attempt raises KeyError on the absent altitude key and the exception propagates
uncaught, so the claimed type-3-implies-emission direction fails on the code. -/
theorem c2_counterexample :
    (pyFields linePosAlt0).get? 1 = some "3"
    ∧ (processLine emptyReg linePosAlt0 7 "T" "S").2.didEmit = false
    ∧ (processLine emptyReg linePosAlt0 7 "T" "S").2.errOf
        = some (PyErr.keyError "altitude") :=
  ⟨by decide, by decide, by decide⟩

/-- C2 amended: an emission occurs only for an Airborne-Position line (type 3) and
then records last_sent = now and last_seen = now on that aircraft; identity (type 1)
and velocity (type 4) lines never emit; and a type-3 line carrying an identity is
never silently skipped: it either emits or ends in an uncaught error. -/
theorem c2_emission_policy (R : Registry) (line : String) (now : Nat) (tN tS : String) :
    ((processLine R line now tN tS).2.didEmit = true →
      (pyFields line).get? 1 = some "3"
      ∧ ∃ hexID, (pyFields line).get? 4 = some hexID
        ∧ lastSentOf (processLine R line now tN tS).1 hexID = some now
        ∧ lastSeenOf (processLine R line now tN tS).1 hexID = some now)
    ∧ (∀ f1, (pyFields line).get? 1 = some f1 → f1 = "1" ∨ f1 = "4" →
        (processLine R line now tN tS).2.didEmit = false)
    ∧ (∀ hexID, (pyFields line).get? 4 = some hexID →
        (pyFields line).get? 1 = some "3" →
        (processLine R line now tN tS).2.didEmit = true
        ∨ (processLine R line now tN tS).2.isOk = false) := by
  refine ⟨processLine_emit R line now tN tS, ?_, ?_⟩
  · intro f1 h1 hf
    rcases hf with rfl | rfl
    · exact processLine_type1_noemit R line now tN tS h1
    · exact processLine_type4_noemit R line now tN tS h1
  · intro hexID h4 h1
    exact processLine_type3_attempt R line now tN tS hexID h4 h1

/-- Witness for the amended C2: a complete position line emits and stamps both
timestamps, and an identity line does not emit. -/
theorem c2_emission_policy_witness :
    lastSentOf (processLine emptyReg lineEmit 42 "T" "S").1 "ABC123" = some 42
    ∧ lastSeenOf (processLine emptyReg lineEmit 42 "T" "S").1 "ABC123" = some 42
    ∧ (processLine emptyReg lineIdentCs 3 "T" "S").2.didEmit = false := by
  obtain ⟨-, hexID, hhex, hsent, hseen⟩ :=
    (c2_emission_policy emptyReg lineEmit 42 "T" "S").1 (by decide)
  have hx : hexID = "ABC123" :=
    Option.some.inj
      (hhex.symm.trans (by decide : (pyFields lineEmit).get? 4 = some "ABC123"))
  subst hx
  exact ⟨hsent, hseen,
    (c2_emission_policy emptyReg lineIdentCs 3 "T" "S").2.1 "1" (by decide) (Or.inl rfl)⟩

/-- C3: for a record whose altitude is already set, an Airborne-Position update with
a non-positive reported altitude leaves the stored altitude unchanged, one whose
altitude field is absent (too few fields) leaves it unchanged as well, and the
altitude is ever overwritten only by a strictly positive reported value.  This is
stated for any processed line, so no other update kind can change altitude either. -/
theorem c3_altitude_guard (R : Registry) (line : String) (now : Nat) (tN tS : String)
    (h : String) (r : Plane) (aStr : String)
    (hr : R h = some r) (ha : r.altitude = some aStr) :
    (∀ f11 a, (pyFields line).get? 11 = some f11 → pyInt? f11 = some a → a ≤ 0 →
      altOf (processLine R line now tN tS).1 h = some aStr)
    ∧ ((pyFields line).get? 11 = none →
      altOf (processLine R line now tN tS).1 h = some aStr)
    ∧ (∀ s, altOf (processLine R line now tN tS).1 h = some s →
      s = aStr ∨ ∃ a, (pyFields line).get? 11 = some s ∧ pyInt? s = some a ∧ 0 < a) := by
  have hbase : altOf R h = some aStr := by
    unfold altOf
    rw [hr]
    exact ha
  have hm := altOf_processLine R line now tN tS h
  refine ⟨?_, ?_, ?_⟩
  · intro f11 a h11 hInt hle
    rcases hm with hm | ⟨h1, h4, f11', a', h11', hInt', hpos', halt'⟩
    · rw [hm, hbase]
    · have he1 : f11' = f11 := Option.some.inj (h11'.symm.trans h11)
      subst he1
      have he2 : a' = a := Option.some.inj (hInt'.symm.trans hInt)
      subst he2
      omega
  · intro h11
    rcases hm with hm | ⟨h1, h4, f11', a', h11', hInt', hpos', halt'⟩
    · rw [hm, hbase]
    · rw [h11] at h11'
      cases h11'
  · intro s hs
    rcases hm with hm | ⟨h1, h4, f11', a', h11', hInt', hpos', halt'⟩
    · left
      rw [hm, hbase] at hs
      exact (Option.some.inj hs).symm
    · right
      have he : f11' = s := Option.some.inj (halt'.symm.trans hs)
      subst he
      exact ⟨a', h11', hInt', hpos'⟩

/-- Witness for C3: a record holding altitude 3500 keeps it after a type-3 update
reporting altitude 0 (the update is otherwise processed and even emits). -/
theorem c3_altitude_guard_witness :
    altOf (processLine regAlt3500 linePosAlt0K 5 "T" "S").1 "ABC123" = some "3500" :=
  (c3_altitude_guard regAlt3500 linePosAlt0K 5 "T" "S" "ABC123" planeAlt3500 "3500"
    (by decide) rfl).1 "0" 0 (by decide) (by decide) (by decide)

/-- C4 counterexample: lineBadType has five fields and yields an identity, but its
message-type field is not an integer, so int() raises an uncaught ValueError: an
input-parsing failure terminates the processing loop even though the input
transport is intact, refuting the universal recoverable-parsing claim. -/
theorem c4_counterexample :
    (processLine emptyReg lineBadType 3 "T" "S").2.errOf = some PyErr.valueError
    ∧ (processLine emptyReg lineBadType 3 "T" "S").2.isOk = false :=
  ⟨by decide, by decide⟩

/-- C4 amended: a line that cannot yield an aircraft identity (fewer than five
comma-separated fields) leaves the registry exactly unchanged, triggers no emission
and raises nothing; however a line with an identity whose numeric fields fail
integer parsing raises an uncaught error that ends the loop. -/
theorem c4_no_identity_local (R : Registry) (line : String) (now : Nat) (tN tS : String)
    (h4 : (pyFields line).get? 4 = none) :
    processLine R line now tN tS = (R, .ok none) :=
  processLine_noid R line now tN tS h4

/-- Witness for the amended C4: the three-field line is dropped with the registry
returned untouched. -/
theorem c4_no_identity_local_witness :
    processLine emptyReg lineShort 0 "T" "S" = (emptyReg, .ok none) :=
  c4_no_identity_local emptyReg lineShort 0 "T" "S" (by decide)

/-- C5 counterexample: encoding a snapshot without an altitude does fail on the
altitude key, but the caller does not skip and continue: processing the
corresponding position line ends in a not-ok outcome (the KeyError propagates and
the process dies), refuting the skip-emission-and-continue claim. -/
theorem c5_counterexample :
    exErr (plane2CoT planeNoAlt "T" "S") = some (PyErr.keyError "altitude")
    ∧ (processLine regNoAlt lineC5cex 4 "T" "S").2.isOk = false :=
  ⟨by decide, by decide⟩

/-- C5 amended: when the snapshot lacks altitude (identity and position present),
encode fails explicitly with KeyError on the altitude field; the caller does not
catch it, so a position line whose record has no altitude ends processing with that
uncaught error and no emission, rather than skipping and continuing. -/
theorem c5_missing_altitude :
    (∀ p tN tS, p.aircraft_id.isSome = true → p.lat.isSome = true →
      p.lon.isSome = true → p.altitude = none →
      exErr (plane2CoT p tN tS) = some (.keyError "altitude"))
    ∧ (∀ R line now tN tS hexID la lo f11 a,
      (pyFields line).get? 4 = some hexID → (pyFields line).get? 1 = some "3" →
      R hexID = none →
      (pyFields line).get? 14 = some la → (pyFields line).get? 15 = some lo →
      (pyFields line).get? 11 = some f11 → pyInt? f11 = some a → ¬0 < a →
      (processLine R line now tN tS).2.errOf = some (.keyError "altitude")) := by
  constructor
  · intro p tN tS hA hLa hLo hAlt
    obtain ⟨aid, hA⟩ := Option.isSome_iff_exists.mp hA
    obtain ⟨la, hLa⟩ := Option.isSome_iff_exists.mp hLa
    obtain ⟨lo, hLo⟩ := Option.isSome_iff_exists.mp hLo
    unfold plane2CoT
    rw [hA]
    dsimp only
    rw [hLa]
    dsimp only
    rw [hLo]
    dsimp only
    rw [hAlt]
    rfl
  · intro R line now tN tS hexID la lo f11 a h4 h1 hR h14 h15 h11 hInt11 hnpos
    exact processLine_noalt_keyerror R line now tN tS hexID la lo f11 a
      h4 h1 hR h14 h15 h11 hInt11 hnpos

/-- Witness for the amended C5: a concrete altitude-less snapshot makes encode fail
on the altitude key, and processing a fresh position line reporting altitude 0 ends
with that error. -/
theorem c5_missing_altitude_witness :
    exErr (plane2CoT planeNoAlt2 "T" "S") = some (PyErr.keyError "altitude")
    ∧ (processLine emptyReg lineC5w 4 "T" "S").2.errOf
        = some (PyErr.keyError "altitude") :=
  ⟨c5_missing_altitude.1 planeNoAlt2 "T" "S" rfl rfl rfl rfl,
   c5_missing_altitude.2 emptyReg lineC5w 4 "T" "S" "CD0006" "5.0" "6.0" "0" 0
     (by decide) (by decide) rfl (by decide) (by decide) (by decide) (by decide)
     (by decide)⟩

/-- C6: the derived event identity is the fixed namespace prefix followed by 1ca0,
two zero digits and the lower-cased aircraft identity; it is deterministic (cotUid
is a pure function of the identity, and a successful encode always carries exactly
this uid attribute) and injective over the 24-bit identity space rendered as 6 hex
characters. -/
theorem c6_uid_identity :
    (∀ p tN tS aid, p.aircraft_id = some aid → isOkE (plane2CoT p tN tS) = true →
      okEventAttr (plane2CoT p tN tS) "uid" = some (cotUid aid))
    ∧ (∀ aid, cotUid aid = UUID_ROOT ++ "-1ca0" ++ "00" ++ pyLower aid)
    ∧ (∀ n m, n < 2 ^ 24 → m < 2 ^ 24 →
        cotUid (toHex6 n) = cotUid (toHex6 m) → n = m) := by
  refine ⟨?_, fun aid => rfl, ?_⟩
  · intro p tN tS aid hA hok
    obtain ⟨aid', la, lo, altStr, alt, tr, cs, hA', hLa, hLo, hAlt, hInt, hT, hC, heq⟩ :=
      plane2CoT_ok_inv p tN tS hok
    have hx : aid' = aid := Option.some.inj (hA'.symm.trans hA)
    subst hx
    rw [heq]
    dsimp only [okEventAttr]
    exact cotElem_uid _ la lo alt tr cs tN tS
  · intro n m hn hm hu
    rw [(by norm_num : (2 : Nat) ^ 24 = 16777216)] at hn hm
    exact cotUid_inj24 n m hn hm hu

/-- Witness for C6: the uid attribute of a concrete encode, and injectivity applied
at a concrete identity value. -/
theorem c6_uid_identity_witness :
    okEventAttr (plane2CoT planeFull "T" "S") "uid"
      = some "7ea452c5-a1ec-ad5b-a7ac-1ca000abc123"
    ∧ (11256099 : Nat) = 11256099 := by
  constructor
  · exact (c6_uid_identity.1 planeFull "T" "S" "abc123" rfl (by decide)).trans (by decide)
  · exact c6_uid_identity.2.2 11256099 11256099 (by norm_num) (by norm_num) rfl

/-- C7 counterexample: the record for AB0004 holds the placeholder callsign
xAB0004; an identity line whose callsign field (index 10) is empty overwrites it
with the empty string and the line completes normally, so a previously set field
is cleared to empty, refuting the monotonic-refinement invariant. -/
theorem c7_counterexample :
    callsignOf regFresh4 "AB0004" = some "xAB0004"
    ∧ callsignOf (processLine regFresh4 lineIdentEmpty 9 "T" "S").1 "AB0004" = some ""
    ∧ (processLine regFresh4 lineIdentEmpty 9 "T" "S").2.isOk = true :=
  ⟨by decide, by decide, by decide⟩

/-- C7 amended: an identity update overwrites the callsign with the raw value of
field 10 unconditionally, whether or not that value is empty; only altitude has a
guarded merge (see the C3 theorem for the altitude guard). -/
theorem c7_overwrite (R : Registry) (line : String) (now : Nat) (tN tS : String)
    (hexID cs : String)
    (h4 : (pyFields line).get? 4 = some hexID)
    (h1 : (pyFields line).get? 1 = some "1")
    (h10 : (pyFields line).get? 10 = some cs) :
    callsignOf (processLine R line now tN tS).1 hexID = some cs :=
  (processLine_type1 R line now tN tS hexID cs h4 h1 h10).1

/-- Witness for the amended C7: an identity line carrying UAL12 sets that callsign. -/
theorem c7_overwrite_witness :
    callsignOf (processLine emptyReg lineIdentCs 2 "T" "S").1 "AB0007" = some "UAL12" :=
  c7_overwrite emptyReg lineIdentCs 2 "T" "S" "AB0007" "UAL12"
    (by decide) (by decide) (by decide)

/-- C8 counterexample: a line with message-type 5 yields an identity and creates
the record, but the type filter continues before the last_seen update, so the
record has no last_seen timestamp although the line was processed without error,
refuting the unconditional-last_seen claim. -/
theorem c8_counterexample :
    ((processLine emptyReg lineType5 11 "T" "S").1 "AB0005").isSome = true
    ∧ lastSeenOf (processLine emptyReg lineType5 11 "T" "S").1 "AB0005" = none
    ∧ (processLine emptyReg lineType5 11 "T" "S").2.isOk = true :=
  ⟨by decide, by decide, by decide⟩

/-- C8 amended: last_seen is set to the current time for every line that yields an
identity, whose message-type parses to an integer at most 4, and whose processing
completes without an uncaught exception; lines with type codes greater than 4 skip
the last_seen update (the record is still created if new). -/
theorem c8_last_seen (R : Registry) (line : String) (now : Nat) (tN tS : String)
    (hexID f1 : String) (n : Int)
    (h4 : (pyFields line).get? 4 = some hexID)
    (h1 : (pyFields line).get? 1 = some f1)
    (hInt : pyInt? f1 = some n) (hle : n ≤ 4)
    (hok : (processLine R line now tN tS).2.isOk = true) :
    lastSeenOf (processLine R line now tN tS).1 hexID = some now :=
  processLine_lastSeen R line now tN tS hexID f1 n h4 h1 hInt hle hok

/-- Witness for the amended C8: a type-2 line (tracked range, no merge branch)
stamps last_seen. -/
theorem c8_last_seen_witness :
    lastSeenOf (processLine emptyReg lineType2 11 "T" "S").1 "AB0008" = some 11 :=
  c8_last_seen emptyReg lineType2 11 "T" "S" "AB0008" "2" 2
    (by decide) (by decide) (by decide) (by decide) (by decide)

/-- C9: a successful encode contains a track element exactly when both ground_speed
and ground_track are present on the snapshot; when either is absent the detail
block carries no track element at all. -/
theorem c9_track_iff (p : Plane) (tN tS : String)
    (hok : isOkE (plane2CoT p tN tS) = true) :
    hasTrackE (plane2CoT p tN tS) = (p.ground_speed.isSome && p.ground_track.isSome) := by
  obtain ⟨aid, la, lo, altStr, alt, tr, cs, hA, hLa, hLo, hAlt, hInt, hT, hC, heq⟩ :=
    plane2CoT_ok_inv p tN tS hok
  rw [heq]
  unfold hasTrackE
  dsimp only
  rw [cotElem_track]
  rw [← trackAttrs_ok_isSome p tr hT]
  cases tr <;> simp

/-- Witness for C9: the full snapshot carries a track element, the snapshot with no
velocity data carries none. -/
theorem c9_track_iff_witness :
    hasTrackE (plane2CoT planeFull "T" "S") = true
    ∧ hasTrackE (plane2CoT planeNoTrack "T" "S") = false := by
  constructor
  · exact (c9_track_iff planeFull "T" "S" (by decide)).trans (by decide)
  · exact (c9_track_iff planeNoTrack "T" "S" (by decide)).trans (by decide)

/-- C10: any line with at least five comma-separated fields whose identity names an
unknown aircraft creates a record for it (whatever else the line does), and when
the message-type code parses to an integer greater than 4 the new record is exactly
the fresh one, with placeholder callsign x plus the identity, and the line is
otherwise ignored (no emission, loop continues). -/
theorem c10_creation (R : Registry) (line : String) (now : Nat) (tN tS : String)
    (hexID : String)
    (h4 : (pyFields line).get? 4 = some hexID) (hnew : R hexID = none) :
    ((processLine R line now tN tS).1 hexID).isSome = true
    ∧ (∀ f1 n, (pyFields line).get? 1 = some f1 → pyInt? f1 = some n → 4 < n →
      (processLine R line now tN tS).1 hexID = some (newPlane hexID)
      ∧ (newPlane hexID).callsign = some ("x" ++ hexID)
      ∧ (processLine R line now tN tS).2 = .ok none) := by
  constructor
  · exact processLine_keeps R line now tN tS hexID h4
  · intro f1 n h1 hInt hgt
    have heq := processLine_gt4 R line now tN tS hexID f1 n h4 h1 hInt hgt
    rw [heq]
    refine ⟨?_, rfl, rfl⟩
    dsimp only
    rw [ensureRecord_of_none R hexID hnew]
    exact updateReg_self R hexID (newPlane hexID)

/-- Witness for C10: a type-5 line for an unknown aircraft creates exactly the
placeholder record. -/
theorem c10_creation_witness :
    (processLine emptyReg lineType5 11 "T" "S").1 "AB0005" = some (newPlane "AB0005")
    ∧ (newPlane "AB0005").callsign = some "xAB0005" := by
  have h := (c10_creation emptyReg lineType5 11 "T" "S" "AB0005" (by decide) rfl).2
    "5" 5 (by decide) (by decide) (by decide)
  exact ⟨h.1, h.2.1.trans (by decide)⟩
